import Mathlib

/-
Verification of the Curumim Telegram intake bot (src/main.py) against its
natural-language specification.

The development shallowly embeds the per-session state machine of
src/main.py.  Stages are the literal strings used by the code
("awaiting_consent", ..., "awaiting_audio_<task>", "finished"); the
session metadata dictionary is embedded as a record of optional fields
plus an association list for the task -> audio-url sub-mapping; the
in-memory session map `user_states` is embedded as a function from chat
id to an optional session.

External effects are embedded as explicit inputs and outputs:
an inbound Telegram message is a pair of an optional text and an optional
voice attachment, and the outcome of the audio fetch/upload pipeline
(context.bot.get_file / download_to_drive / upload_audio_to_r2) is part
of the input, since it is decided by the outside world.  Replies are
returned as an ordered list of strings.

String helpers (lowercasing, stripping, digit parsing) are re-defined by
structural recursion over the character list so that all definitions
evaluate inside the kernel.  They model the ASCII behaviour of the
Python methods str.lower / str.strip / str.isdigit + int; the Python
originals additionally handle non-ASCII case mappings and whitespace,
which none of the inputs considered here use.  Quotation marks and
Markdown apostrophes occurring inside the original Portuguese reply
texts are elided; each reply string is otherwise taken verbatim from
src/main.py, and all that matters for the claims is their identity and
distinctness.
-/

/-- ASCII lower-casing of one character, modelling Python str.lower. -/
def asciiLowerChar (c : Char) : Char :=
  if 65 ≤ c.toNat ∧ c.toNat ≤ 90 then Char.ofNat (c.toNat + 32) else c

/-- Model of Python str.lower (ASCII range). -/
def asciiLower (s : String) : String := ⟨s.data.map asciiLowerChar⟩

/-- ASCII whitespace test, modelling the characters Python str.strip removes. -/
def isWSChar (c : Char) : Bool := c.toNat = 32 ∨ c.toNat = 9 ∨ c.toNat = 10 ∨ c.toNat = 13

/-- Model of Python str.strip: remove leading and trailing whitespace. -/
def stripWS (s : String) : String :=
  ⟨((s.data.dropWhile isWSChar).reverse.dropWhile isWSChar).reverse⟩

/-- Decimal digit test, modelling Python str.isdigit on ASCII input. -/
def isDigitChar (c : Char) : Bool := 48 ≤ c.toNat ∧ c.toNat ≤ 57

/-- Model of the combination `t.isdigit() and int(t)` used by main.py:
returns the value when the text is a non-empty string of digits, and
nothing otherwise. -/
def digitStrToNat? (s : String) : Option Nat :=
  if s.data ≠ [] ∧ s.data.all isDigitChar then
    some (s.data.foldl (fun n c => 10 * n + (c.toNat - 48)) 0)
  else none

/-- Model of Python str.startswith, used for the `awaiting_audio_` stages. -/
def strStartsWith (s pre : String) : Bool := pre.data.isPrefixOf s.data

/-- Model of `task_type.replace('_', ' ')` from main.py line 218. -/
def underscoreToSpace (s : String) : String :=
  ⟨s.data.map (fun c => if c = '_' then ' ' else c)⟩

/-- Drop the first character of a string (used by the spec-side integer parser). -/
def strDropFirst (s : String) : String := ⟨s.data.drop 1⟩

/-- The session metadata dictionary of main.py, embedded as a record of the
fields the code ever writes.  `audio_urls` is the task-name to public-url
sub-dictionary. -/
structure Metadata where
  user_id : Option Nat := none
  telegram_username : Option String := none
  name : Option String := none
  age : Option Nat := none
  smoking_status : Option String := none
  diagnosis : Option String := none
  emotional_state : Option Nat := none
  environment : Option String := none
  current_audio_task : Option String := none
  audio_urls : List (String × String) := []
  deriving DecidableEq

/-- One per-chat session of `user_states`: stage string, metadata, task queue. -/
structure Session where
  stage : String
  metadata : Metadata
  tasks_queue : List String
  deriving DecidableEq

/-- Outcome of the audio fetch/upload pipeline for a voice message, decided by
the external world: the Telegram fetch/download may raise (fetchError, the
`except` branch of main.py lines 235-237), the R2 upload may fail
(uploadFailure, `upload_audio_to_r2` returning None), or the upload succeeds
with a public url. -/
inductive AudioResult where
  | fetchError : AudioResult
  | uploadFailure : AudioResult
  | uploaded : String → AudioResult
  deriving DecidableEq

/-- Python dict assignment `d[k] = v` on the audio_urls association list:
overwrite the entry if the key is present, otherwise append. -/
def dictSet (l : List (String × String)) (k v : String) : List (String × String) :=
  if l.any (fun p => p.1 == k) then
    l.map (fun p => if p.1 == k then (k, v) else p)
  else l ++ [(k, v)]

/-- Welcome / consent prompt sent by start_command (main.py lines 82-86). -/
def consentPrompt (sender : String) : String :=
  "Olá, " ++ sender ++ "! Eu sou Curumim, seu assistente de IA para o projeto Angelia. Sua voz pode nos ajudar a desenvolver novas formas de monitorar a saúde. As gravações serão usadas anonimamente e exclusivamente para pesquisa científica. Você gostaria de participar e contribuir com sua voz? (Sim/Não)"

/-- Reply on accepted consent (main.py line 120). -/
def askNameReply : String :=
  "Ótimo! Sua participação é muito importante. Para começar, qual o seu *nome* ou um *apelido* que gostaria de usar para esta pesquisa?"

/-- Reply on declined consent (main.py line 124). -/
def declinedReply : String :=
  "Entendi. Agradecemos seu interesse. Se mudar de ideia, pode digitar /start a qualquer momento."

/-- Corrective reply for invalid consent input (main.py line 128). -/
def askConsentAgainReply : String :=
  "Por favor, responda Sim ou Não para indicar seu consentimento."

/-- Reply on accepted name; interpolates the stored name (main.py line 135). -/
def askAgeReply (storedName : String) : String :=
  "Obrigado, " ++ storedName ++ "! Agora, qual a sua *idade* (apenas números)?"

/-- Corrective reply when no name text was sent (main.py line 139). -/
def askNameAgainReply : String :=
  "Por favor, me diga seu nome ou apelido."

/-- Reply on accepted age (main.py line 145). -/
def askSmokingReply : String :=
  "Idade registrada! Você se considera *Fumante*, *Ex-fumante* ou *Não fumante*?"

/-- Corrective reply stating the valid age range (main.py line 149). -/
def ageRangeReply : String :=
  "Por favor, digite sua idade em números (entre 5 e 120 anos)."

/-- Reply on accepted smoking status (main.py lines 155-156). -/
def askDiagnosisReply : String :=
  "Obrigado. Você tem algum *diagnóstico de saúde* relevante (ex: Parkinson, Diabetes, Hipertensão, Saudável)?"

/-- Corrective reply listing the valid smoking labels (main.py line 160). -/
def smokingLabelsReply : String :=
  "Por favor, responda com Fumante, Ex-fumante ou Não fumante."

/-- Reply on accepted diagnosis (main.py lines 166-167). -/
def askEmotionalReply : String :=
  "Entendido. Em uma escala de 1 a 5 (onde 1 é muito calmo e 5 é muito estressado), como você se sente *emocionalmente* agora?"

/-- Corrective reply when no diagnosis text was sent (main.py line 171). -/
def askDiagnosisAgainReply : String :=
  "Por favor, digite seu diagnóstico de saúde (ou Saudável se não tiver)."

/-- Reply on accepted emotional state (main.py lines 177-178). -/
def askEnvironmentReply : String :=
  "Quase lá! Por favor, descreva o *ambiente* onde você está gravando agora: (Ex: Silencioso, Pouco ruído, Barulhento)"

/-- Corrective reply stating the valid emotional range (main.py line 182). -/
def emotionalRangeReply : String :=
  "Por favor, use um número de 1 a 5 para descrever seu estado emocional."

/-- Reply on accepted environment, before the first audio prompt (main.py lines 190-194). -/
def environmentAcceptReply : String :=
  "Perfeito! Seus dados iniciais foram registrados. Agora, vamos para a parte mais importante: a sua voz. Por favor, encontre um local o mais silencioso possível. Quando estiver pronto, vamos começar."

/-- Corrective reply when no environment text was sent (main.py line 198). -/
def askEnvironmentAgainReply : String :=
  "Por favor, descreva o ambiente da gravação."

/-- Prompt for the vogal_a task (main.py line 263). -/
def promptVogalA : String :=
  "Ótimo! Inspire fundo. Quando eu disser Já, por favor, diga Aaaaaa por cerca de 5 segundos. Pronto? ... Já!"

/-- Prompt for the vogal_i task (main.py line 265). -/
def promptVogalI : String :=
  "Excelente. Agora, vamos fazer o mesmo com a vogal I. Inspire fundo. Quando eu disser Já, por favor, diga Iiiiiii por cerca de 5 segundos. Pronto? ... Já!"

/-- Prompt for the vogal_o task (main.py line 267). -/
def promptVogalO : String :=
  "Quase lá! Para a última vogal, inspire fundo. Quando eu disser Já, por favor, diga Oooooo por cerca de 5 segundos. Pronto? ... Já!"

/-- Prompt for the contagem_1_10 task (main.py line 269). -/
def promptContagem : String :=
  "Para a próxima tarefa, por favor, inspire fundo. Quando eu disser Já, conte pausadamente de 1 a 10. Pronto? ... Já!"

/-- The task-specific prompt emitted when a task is dequeued
(main.py lines 262-269); the if/elif chain emits nothing for a task name
outside the fixed four. -/
def taskPrompt (next_task : String) : List String :=
  if next_task = "vogal_a" then [promptVogalA]
  else if next_task = "vogal_i" then [promptVogalI]
  else if next_task = "vogal_o" then [promptVogalO]
  else if next_task = "contagem_1_10" then [promptContagem]
  else []

/-- Success reply for a stored audio (main.py line 218). -/
def audioSavedReply (task_type : String) : String :=
  "Áudio da " ++ underscoreToSpace task_type ++ " recebido e salvo no R2! Obrigado."

/-- Failure reply when the R2 upload returned no url (main.py line 225). -/
def uploadFailedReply : String :=
  "Áudio recebido, mas houve um problema ao salvar no R2. Por favor, tente novamente."

/-- Failure reply from the exception handler around the Telegram audio fetch
(main.py line 237). -/
def processErrorReply : String :=
  "Desculpe, tive um problema ao processar seu áudio. Poderia tentar novamente?"

/-- Corrective reply when no voice attachment was sent (main.py line 239). -/
def noAudioReply : String :=
  "Não recebi um áudio. Por favor, grave e envie o áudio solicitado para a tarefa atual."

/-- First of the two closing replies (main.py lines 274-276). -/
def allSamplesReply : String :=
  "Fantástico! Coletamos todas as suas amostras de voz. Sua contribuição é extremamente valiosa para a pesquisa de saúde da Angelia AI."

/-- Session summary reply (main.py lines 277-286), interpolating the
collected metadata with N/A defaults. -/
def summaryReply (m : Metadata) : String :=
  "Muito obrigado por participar! Seus dados foram salvos com sucesso.\n\nDetalhes da sua sessão (anonimizados para pesquisa):\nNome/ID: "
    ++ m.name.getD "N/A"
    ++ "\nIdade: " ++ (match m.age with | some n => toString n | none => "N/A")
    ++ "\nDiagnóstico: " ++ m.diagnosis.getD "N/A"
    ++ "\nEstado Emocional: " ++ (match m.emotional_state with | some n => toString n | none => "N/A")
    ++ "\nAmbiente: " ++ m.environment.getD "N/A"
    ++ "\n\nPara iniciar uma nova sessão, digite /start."

/-- Reply sent in the finished stage to anything but the reset keyword
(main.py line 246). -/
def finishedReply : String :=
  "Sua contribuição está completa! Muito obrigado por ajudar a Angelia AI. Se quiser começar de novo, digite /start."

/-- Reply of the global error_handler (main.py line 295), reached when the
awaiting_audio branch reads a missing current_audio_task key (main.py
line 203 raises KeyError). -/
def internalErrorReply : String :=
  "Ops! Ocorreu um erro interno. Por favor, tente novamente ou digite /start para reiniciar."

/-- request_next_audio_task (main.py lines 253-288): dequeue the head of
tasks_queue, record it as current_audio_task, move to its awaiting_audio
stage and emit its prompt; with an empty queue emit the two closing
replies and move to finished. -/
def request_next_audio_task (user_state : Session) : Session × List String :=
  match user_state.tasks_queue with
  | next_task :: rest =>
      ({ stage := "awaiting_audio_" ++ next_task
         metadata := { user_state.metadata with current_audio_task := some next_task }
         tasks_queue := rest },
       taskPrompt next_task)
  | [] =>
      ({ user_state with stage := "finished" },
       [allSamplesReply, summaryReply user_state.metadata])

/-- The state-machine body of message_handler (main.py lines 115-250) as one
per-session transition: given the stored session, the sender display name and
the inbound message (optional text, optional voice-processing outcome), it
returns the session stored by the final write-back at line 249 together with
the ordered replies.

In the finished/reiniciar branch the code calls start_command, which stores a
fresh session, but the unconditional write-back `user_states[chat_id] =
user_state` at line 249 then restores the stale local session object; the net
stored session is therefore the unchanged input session, and the only visible
effect is the welcome reply.  This function returns that net effect. -/
def message_step (user_state : Session) (sender : String)
    (user_text : Option String) (user_audio : Option AudioResult) :
    Session × List String :=
  if user_state.stage = "awaiting_consent" then
    match user_text with
    | some t =>
        if t ≠ "" ∧ asciiLower t ∈ ["sim", "s"] then
          ({ user_state with stage := "awaiting_name" }, [askNameReply])
        else if t ≠ "" ∧ asciiLower t ∈ ["não", "n", "nao"] then
          ({ user_state with stage := "finished" }, [declinedReply])
        else (user_state, [askConsentAgainReply])
    | none => (user_state, [askConsentAgainReply])
  else if user_state.stage = "awaiting_name" then
    match user_text with
    | some t =>
        if t ≠ "" then
          ({ user_state with
             stage := "awaiting_age"
             metadata := { user_state.metadata with name := some (stripWS t) } },
           [askAgeReply (stripWS t)])
        else (user_state, [askNameAgainReply])
    | none => (user_state, [askNameAgainReply])
  else if user_state.stage = "awaiting_age" then
    match user_text with
    | some t =>
        (match digitStrToNat? t with
         | some n =>
             if 5 ≤ n ∧ n ≤ 120 then
               ({ user_state with
                  stage := "awaiting_smoking_status"
                  metadata := { user_state.metadata with age := some n } },
                [askSmokingReply])
             else (user_state, [ageRangeReply])
         | none => (user_state, [ageRangeReply]))
    | none => (user_state, [ageRangeReply])
  else if user_state.stage = "awaiting_smoking_status" then
    match user_text with
    | some t =>
        if t ≠ "" ∧ asciiLower t ∈ ["fumante", "ex-fumante", "não fumante", "nao fumante"] then
          ({ user_state with
             stage := "awaiting_diagnosis"
             metadata := { user_state.metadata with
               smoking_status := some (asciiLower (stripWS t)) } },
           [askDiagnosisReply])
        else (user_state, [smokingLabelsReply])
    | none => (user_state, [smokingLabelsReply])
  else if user_state.stage = "awaiting_diagnosis" then
    match user_text with
    | some t =>
        if t ≠ "" then
          ({ user_state with
             stage := "awaiting_emotional_state"
             metadata := { user_state.metadata with diagnosis := some (stripWS t) } },
           [askEmotionalReply])
        else (user_state, [askDiagnosisAgainReply])
    | none => (user_state, [askDiagnosisAgainReply])
  else if user_state.stage = "awaiting_emotional_state" then
    match user_text with
    | some t =>
        (match digitStrToNat? t with
         | some n =>
             if 1 ≤ n ∧ n ≤ 5 then
               ({ user_state with
                  stage := "awaiting_environment"
                  metadata := { user_state.metadata with emotional_state := some n } },
                [askEnvironmentReply])
             else (user_state, [emotionalRangeReply])
         | none => (user_state, [emotionalRangeReply]))
    | none => (user_state, [emotionalRangeReply])
  else if user_state.stage = "awaiting_environment" then
    match user_text with
    | some t =>
        if t ≠ "" then
          let s1 : Session :=
            { user_state with
              metadata := { user_state.metadata with environment := some (stripWS t) }
              tasks_queue := ["vogal_a", "vogal_i", "vogal_o", "contagem_1_10"] }
          let r := request_next_audio_task s1
          (r.1, environmentAcceptReply :: r.2)
        else (user_state, [askEnvironmentAgainReply])
    | none => (user_state, [askEnvironmentAgainReply])
  else if strStartsWith user_state.stage "awaiting_audio_" then
    match user_audio with
    | some a =>
        (match user_state.metadata.current_audio_task with
         | some task_type =>
             (match a with
              | AudioResult.fetchError => (user_state, [processErrorReply])
              | AudioResult.uploadFailure =>
                  let r := request_next_audio_task user_state
                  (r.1, uploadFailedReply :: r.2)
              | AudioResult.uploaded url =>
                  let s1 : Session :=
                    { user_state with
                      metadata := { user_state.metadata with
                        audio_urls := dictSet user_state.metadata.audio_urls task_type url } }
                  let r := request_next_audio_task s1
                  (r.1, audioSavedReply task_type :: r.2))
         | none => (user_state, [internalErrorReply]))
    | none => (user_state, [noAudioReply])
  else if user_state.stage = "finished" then
    match user_text with
    | some t =>
        if t ≠ "" ∧ asciiLower t = "reiniciar" then
          (user_state, [consentPrompt sender])
        else (user_state, [finishedReply])
    | none => (user_state, [finishedReply])
  else (user_state, [])

/-- The in-memory session map `user_states` of main.py. -/
def Store : Type := Nat → Option Session

/-- Assignment `user_states[chat_id] = s`. -/
def setStore (store : Store) (chat_id : Nat) (s : Session) : Store :=
  fun k => if k = chat_id then some s else store k

/-- start_command (main.py lines 70-86): store a fresh awaiting_consent
session whose metadata carries only the chat id and the sender display
name, and send the welcome / consent prompt. -/
def start_command (chat_id : Nat) (sender : String) : Session × String :=
  ({ stage := "awaiting_consent"
     metadata := { user_id := some chat_id, telegram_username := some sender }
     tasks_queue := [] },
   consentPrompt sender)

/-- message_handler (main.py lines 97-250) at the session-store level: an
unknown chat id is redirected to start_command and the message itself is not
processed; a known chat id is processed by the state machine and the
resulting session is written back. -/
def message_handler (store : Store) (chat_id : Nat) (sender : String)
    (user_text : Option String) (user_audio : Option AudioResult) :
    Store × List String :=
  match store chat_id with
  | none =>
      let r := start_command chat_id sender
      (setStore store chat_id r.1, [r.2])
  | some user_state =>
      let r := message_step user_state sender user_text user_audio
      (setStore store chat_id r.1, r.2)

/-- Process a list of inbound messages (text, voice outcome) in order,
with a fixed sender display name. -/
def runSession (sender : String) (s : Session)
    (msgs : List (Option String × Option AudioResult)) : Session :=
  msgs.foldl (fun st m => (message_step st sender m.1 m.2).1) s

/-- Sessions reachable from a freshly created session by processing inbound
messages. -/
inductive Reach : Session → Prop where
  | base (chat_id : Nat) (sender : String) : Reach (start_command chat_id sender).1
  | step {s : Session} (sender : String) (user_text : Option String)
      (user_audio : Option AudioResult) :
      Reach s → Reach (message_step s sender user_text user_audio).1

/-- The seven stages of the question/answer phase. -/
def textualStages : List String :=
  ["awaiting_consent", "awaiting_name", "awaiting_age", "awaiting_smoking_status",
   "awaiting_diagnosis", "awaiting_emotional_state", "awaiting_environment"]

/-- No audio reference has been recorded for task t. -/
def noUrl (m : Metadata) (t : String) : Prop := m.audio_urls.lookup t = none

/-- Reachability invariant of the session state machine. -/
def SessInv (s : Session) : Prop :=
  (s.stage ∈ textualStages ∧ s.tasks_queue = [] ∧ s.metadata.current_audio_task = none
     ∧ s.metadata.audio_urls = [])
  ∨ (s.stage = "awaiting_audio_vogal_a" ∧ s.metadata.current_audio_task = some "vogal_a"
     ∧ s.tasks_queue = ["vogal_i", "vogal_o", "contagem_1_10"]
     ∧ noUrl s.metadata "vogal_a" ∧ noUrl s.metadata "vogal_i" ∧ noUrl s.metadata "vogal_o"
     ∧ noUrl s.metadata "contagem_1_10")
  ∨ (s.stage = "awaiting_audio_vogal_i" ∧ s.metadata.current_audio_task = some "vogal_i"
     ∧ s.tasks_queue = ["vogal_o", "contagem_1_10"]
     ∧ noUrl s.metadata "vogal_i" ∧ noUrl s.metadata "vogal_o" ∧ noUrl s.metadata "contagem_1_10")
  ∨ (s.stage = "awaiting_audio_vogal_o" ∧ s.metadata.current_audio_task = some "vogal_o"
     ∧ s.tasks_queue = ["contagem_1_10"]
     ∧ noUrl s.metadata "vogal_o" ∧ noUrl s.metadata "contagem_1_10")
  ∨ (s.stage = "awaiting_audio_contagem_1_10"
     ∧ s.metadata.current_audio_task = some "contagem_1_10"
     ∧ s.tasks_queue = [] ∧ noUrl s.metadata "contagem_1_10")
  ∨ (s.stage = "finished" ∧ s.tasks_queue = [])

/-- The seven question answers of the worked scenario: consent, name, age,
smoking status, diagnosis, emotional state, environment. -/
def introMsgs : List (Option String × Option AudioResult) :=
  [(some "sim", none), (some "Maria", none), (some "30", none), (some "Fumante", none),
   (some "Parkinson", none), (some "3", none), (some "Silencioso", none)]

/-- Session right after the question phase: awaiting the vogal_a recording. -/
def sessionVogalA : Session := runSession "Ana" (start_command 1 "Ana").1 introMsgs

/-- Session after additionally uploading the vogal_a recording: awaiting vogal_i. -/
def sessionVogalI : Session :=
  runSession "Ana" (start_command 1 "Ana").1
    (introMsgs ++ [(none, some (AudioResult.uploaded "u1"))])

/-- Session awaiting the vogal_o recording, with the last task still queued. -/
def sessionVogalO : Session :=
  runSession "Ana" (start_command 1 "Ana").1
    (introMsgs ++ [(none, some (AudioResult.uploaded "u1")),
                   (none, some (AudioResult.uploaded "u2"))])

/-- Completed session after all four successful uploads. -/
def sessionFinished : Session :=
  runSession "Ana" (start_command 1 "Ana").1
    (introMsgs ++ [(none, some (AudioResult.uploaded "u1")),
                   (none, some (AudioResult.uploaded "u2")),
                   (none, some (AudioResult.uploaded "u3")),
                   (none, some (AudioResult.uploaded "u4"))])

/-- The per-stage validation predicate of message_handler, true exactly when
the branch for the current stage takes its reject path (the else arm that
only sends a corrective reply).  Unknown stage strings, which never occur,
reject nothing. -/
def rejects (s : Session) (user_text : Option String)
    (user_audio : Option AudioResult) : Bool :=
  if s.stage = "awaiting_consent" then
    match user_text with
    | some t =>
        if (t ≠ "" ∧ asciiLower t ∈ ["sim", "s"])
            ∨ (t ≠ "" ∧ asciiLower t ∈ ["não", "n", "nao"]) then false else true
    | none => true
  else if s.stage = "awaiting_name" then
    match user_text with
    | some t => if t ≠ "" then false else true
    | none => true
  else if s.stage = "awaiting_age" then
    match user_text with
    | some t =>
        (match digitStrToNat? t with
         | some n => if 5 ≤ n ∧ n ≤ 120 then false else true
         | none => true)
    | none => true
  else if s.stage = "awaiting_smoking_status" then
    match user_text with
    | some t =>
        if t ≠ "" ∧ asciiLower t ∈ ["fumante", "ex-fumante", "não fumante", "nao fumante"]
        then false else true
    | none => true
  else if s.stage = "awaiting_diagnosis" then
    match user_text with
    | some t => if t ≠ "" then false else true
    | none => true
  else if s.stage = "awaiting_emotional_state" then
    match user_text with
    | some t =>
        (match digitStrToNat? t with
         | some n => if 1 ≤ n ∧ n ≤ 5 then false else true
         | none => true)
    | none => true
  else if s.stage = "awaiting_environment" then
    match user_text with
    | some t => if t ≠ "" then false else true
    | none => true
  else if strStartsWith s.stage "awaiting_audio_" then
    match user_audio with
    | some _ => false
    | none => true
  else if s.stage = "finished" then
    match user_text with
    | some t => if t ≠ "" ∧ asciiLower t = "reiniciar" then false else true
    | none => true
  else false

/-- The corrective reply each stage sends on rejected input. -/
def rejectReply (stage : String) : String :=
  if stage = "awaiting_consent" then askConsentAgainReply
  else if stage = "awaiting_name" then askNameAgainReply
  else if stage = "awaiting_age" then ageRangeReply
  else if stage = "awaiting_smoking_status" then smokingLabelsReply
  else if stage = "awaiting_diagnosis" then askDiagnosisAgainReply
  else if stage = "awaiting_emotional_state" then emotionalRangeReply
  else if stage = "awaiting_environment" then askEnvironmentAgainReply
  else if strStartsWith stage "awaiting_audio_" then noAudioReply
  else if stage = "finished" then finishedReply
  else ""

/-- Modelled from the spec: claim C6 speaks of text "parseable as an integer".
Python int() applied to a string accepts surrounding whitespace and an
optional leading sign ahead of the digits; the guard actually used by the
code (str.isdigit) is strictly narrower. -/
def parseIntSpec (s : String) : Option Int :=
  if strStartsWith (stripWS s) "+" then
    match digitStrToNat? (strDropFirst (stripWS s)) with
    | some n => some ((n : Int))
    | none => none
  else if strStartsWith (stripWS s) "-" then
    match digitStrToNat? (strDropFirst (stripWS s)) with
    | some n => some (-(n : Int))
    | none => none
  else
    match digitStrToNat? (stripWS s) with
    | some n => some ((n : Int))
    | none => none

set_option maxRecDepth 100000

/-- Overwriting the entry of key k does not change lookups of other keys. -/
theorem lookup_map_overwrite (l : List (String × String)) (k v k' : String)
    (h : (k' == k) = false) :
    (l.map (fun p => if p.1 == k then (k, v) else p)).lookup k' = l.lookup k' := by
  induction l with
  | nil => rfl
  | cons p rest ih =>
      by_cases hp : (p.1 == k) = true
      · have hp' : p.1 = k := by simpa using hp
        rw [List.map_cons, if_pos hp]
        simp only [List.lookup, hp', h]
        exact ih
      · rw [List.map_cons, if_neg hp]
        simp only [List.lookup]
        cases hkk : (k' == p.1) with
        | true => rfl
        | false => exact ih

/-- Appending an entry for key k does not change lookups of other keys. -/
theorem lookup_append_single (l : List (String × String)) (k v k' : String)
    (h : (k' == k) = false) :
    (l ++ [(k, v)]).lookup k' = l.lookup k' := by
  induction l with
  | nil => simp [List.lookup, h]
  | cons p rest ih =>
      simp only [List.cons_append, List.lookup]
      cases hkk : (k' == p.1) with
      | true => rfl
      | false => exact ih

/-- Looking up a key other than the one just set reads the old dictionary. -/
theorem lookup_dictSet_ne (l : List (String × String)) (k v k' : String) (h : k' ≠ k) :
    (dictSet l k v).lookup k' = l.lookup k' := by
  have hk : (k' == k) = false := by simpa using h
  unfold dictSet
  split
  · exact lookup_map_overwrite l k v k' hk
  · exact lookup_append_single l k v k' hk

/-- Stage strings produced by appending a task name to the prefix. -/
theorem append_audio_a : ("awaiting_audio_" ++ "vogal_a" : String) = "awaiting_audio_vogal_a" := by decide

/-- Stage string for the vogal_i task. -/
theorem append_audio_i : ("awaiting_audio_" ++ "vogal_i" : String) = "awaiting_audio_vogal_i" := by decide

/-- Stage string for the vogal_o task. -/
theorem append_audio_o : ("awaiting_audio_" ++ "vogal_o" : String) = "awaiting_audio_vogal_o" := by decide

/-- Stage string for the contagem_1_10 task. -/
theorem append_audio_c : ("awaiting_audio_" ++ "contagem_1_10" : String) = "awaiting_audio_contagem_1_10" := by decide

/-- Every step of the state machine preserves the reachability invariant. -/
theorem SessInv_step (s : Session) (sender : String) (user_text : Option String)
    (user_audio : Option AudioResult) (h : SessInv s) :
    SessInv (message_step s sender user_text user_audio).1 := by
  obtain ⟨st, m, q⟩ := s
  simp only [SessInv, textualStages, List.mem_cons, List.not_mem_nil, or_false] at h
  rcases h with ⟨hst | hst | hst | hst | hst | hst | hst, hq, hc, hu⟩
    | ⟨hst, hc, hq, h1, h2, h3, h4⟩ | ⟨hst, hc, hq, h2, h3, h4⟩
    | ⟨hst, hc, hq, h3, h4⟩ | ⟨hst, hc, hq, h4⟩ | ⟨hst, hq⟩
  -- awaiting_consent
  · subst hst; subst hq
    rcases user_text with _ | t
    · exact Or.inl (by simp [message_step, textualStages, hc, hu])
    · by_cases h0 : t = ""
      · exact Or.inl (by simp [message_step, textualStages, h0, hc, hu])
      · by_cases hy : asciiLower t = "sim" ∨ asciiLower t = "s"
        · exact Or.inl (by simp [message_step, textualStages, h0, hy, hc, hu])
        · by_cases hn : asciiLower t = "não" ∨ asciiLower t = "n" ∨ asciiLower t = "nao"
          · refine Or.inr (Or.inr (Or.inr (Or.inr (Or.inr ?_))))
            simp [message_step, h0, hy, hn]
          · exact Or.inl (by simp [message_step, textualStages, h0, hy, hn, hc, hu])
  -- awaiting_name
  · subst hst; subst hq
    rcases user_text with _ | t
    · exact Or.inl (by simp [message_step, textualStages, hc, hu])
    · by_cases h0 : t = ""
      · exact Or.inl (by simp [message_step, textualStages, h0, hc, hu])
      · exact Or.inl (by simp [message_step, textualStages, h0, hc, hu])
  -- awaiting_age
  · subst hst; subst hq
    rcases user_text with _ | t
    · exact Or.inl (by simp [message_step, textualStages, hc, hu])
    · cases hdt : digitStrToNat? t with
      | none => exact Or.inl (by simp [message_step, textualStages, hdt, hc, hu])
      | some n =>
          by_cases hr : 5 ≤ n ∧ n ≤ 120
          · exact Or.inl (by simp [message_step, textualStages, hdt, hr, hc, hu])
          · exact Or.inl (by simp [message_step, textualStages, hdt, hr, hc, hu])
  -- awaiting_smoking_status
  · subst hst; subst hq
    rcases user_text with _ | t
    · exact Or.inl (by simp [message_step, textualStages, hc, hu])
    · by_cases h0 : t = ""
      · exact Or.inl (by simp [message_step, textualStages, h0, hc, hu])
      · by_cases hy : asciiLower t = "fumante" ∨ asciiLower t = "ex-fumante"
            ∨ asciiLower t = "não fumante" ∨ asciiLower t = "nao fumante"
        · exact Or.inl (by simp [message_step, textualStages, h0, hy, hc, hu])
        · exact Or.inl (by simp [message_step, textualStages, h0, hy, hc, hu])
  -- awaiting_diagnosis
  · subst hst; subst hq
    rcases user_text with _ | t
    · exact Or.inl (by simp [message_step, textualStages, hc, hu])
    · by_cases h0 : t = ""
      · exact Or.inl (by simp [message_step, textualStages, h0, hc, hu])
      · exact Or.inl (by simp [message_step, textualStages, h0, hc, hu])
  -- awaiting_emotional_state
  · subst hst; subst hq
    rcases user_text with _ | t
    · exact Or.inl (by simp [message_step, textualStages, hc, hu])
    · cases hdt : digitStrToNat? t with
      | none => exact Or.inl (by simp [message_step, textualStages, hdt, hc, hu])
      | some n =>
          by_cases hr : 1 ≤ n ∧ n ≤ 5
          · exact Or.inl (by simp [message_step, textualStages, hdt, hr, hc, hu])
          · exact Or.inl (by simp [message_step, textualStages, hdt, hr, hc, hu])
  -- awaiting_environment
  · subst hst; subst hq
    rcases user_text with _ | t
    · exact Or.inl (by simp [message_step, textualStages, hc, hu])
    · by_cases h0 : t = ""
      · exact Or.inl (by simp [message_step, textualStages, h0, hc, hu])
      · have e : (message_step ⟨"awaiting_environment", m, []⟩ sender (some t) user_audio).1
            = ⟨"awaiting_audio_" ++ "vogal_a",
               { m with environment := some (stripWS t), current_audio_task := some "vogal_a" },
               ["vogal_i", "vogal_o", "contagem_1_10"]⟩ := by
          simp [message_step, h0, request_next_audio_task, taskPrompt]
        rw [e]
        refine Or.inr (Or.inl ⟨append_audio_a, rfl, rfl, ?_, ?_, ?_, ?_⟩)
        · show List.lookup "vogal_a" m.audio_urls = none
          rw [hu]; rfl
        · show List.lookup "vogal_i" m.audio_urls = none
          rw [hu]; rfl
        · show List.lookup "vogal_o" m.audio_urls = none
          rw [hu]; rfl
        · show List.lookup "contagem_1_10" m.audio_urls = none
          rw [hu]; rfl
  -- awaiting_audio_vogal_a
  · subst hst; subst hq
    have hsw : strStartsWith "awaiting_audio_vogal_a" "awaiting_audio_" = true := by decide
    rcases user_audio with _ | a
    · have e : (message_step ⟨"awaiting_audio_vogal_a", m,
            ["vogal_i", "vogal_o", "contagem_1_10"]⟩ sender user_text none).1
          = ⟨"awaiting_audio_vogal_a", m, ["vogal_i", "vogal_o", "contagem_1_10"]⟩ := by
        simp [message_step, hsw]
      rw [e]
      exact Or.inr (Or.inl ⟨rfl, hc, rfl, h1, h2, h3, h4⟩)
    · rcases a with _ | _ | url
      · have e : (message_step ⟨"awaiting_audio_vogal_a", m,
              ["vogal_i", "vogal_o", "contagem_1_10"]⟩ sender user_text
              (some AudioResult.fetchError)).1
            = ⟨"awaiting_audio_vogal_a", m, ["vogal_i", "vogal_o", "contagem_1_10"]⟩ := by
          simp [message_step, hsw, hc]
        rw [e]
        exact Or.inr (Or.inl ⟨rfl, hc, rfl, h1, h2, h3, h4⟩)
      · have e : (message_step ⟨"awaiting_audio_vogal_a", m,
              ["vogal_i", "vogal_o", "contagem_1_10"]⟩ sender user_text
              (some AudioResult.uploadFailure)).1
            = ⟨"awaiting_audio_" ++ "vogal_i",
               { m with current_audio_task := some "vogal_i" },
               ["vogal_o", "contagem_1_10"]⟩ := by
          simp [message_step, hsw, hc, request_next_audio_task, taskPrompt]
        rw [e]
        exact Or.inr (Or.inr (Or.inl ⟨append_audio_i, rfl, rfl, h2, h3, h4⟩))
      · have e : (message_step ⟨"awaiting_audio_vogal_a", m,
              ["vogal_i", "vogal_o", "contagem_1_10"]⟩ sender user_text
              (some (AudioResult.uploaded url))).1
            = ⟨"awaiting_audio_" ++ "vogal_i",
               { m with audio_urls := dictSet m.audio_urls "vogal_a" url,
                        current_audio_task := some "vogal_i" },
               ["vogal_o", "contagem_1_10"]⟩ := by
          simp [message_step, hsw, hc, request_next_audio_task, taskPrompt]
        rw [e]
        refine Or.inr (Or.inr (Or.inl ⟨append_audio_i, rfl, rfl, ?_, ?_, ?_⟩))
        · show List.lookup "vogal_i" (dictSet m.audio_urls "vogal_a" url) = none
          rw [lookup_dictSet_ne _ _ _ _ (by decide)]; exact h2
        · show List.lookup "vogal_o" (dictSet m.audio_urls "vogal_a" url) = none
          rw [lookup_dictSet_ne _ _ _ _ (by decide)]; exact h3
        · show List.lookup "contagem_1_10" (dictSet m.audio_urls "vogal_a" url) = none
          rw [lookup_dictSet_ne _ _ _ _ (by decide)]; exact h4
  -- awaiting_audio_vogal_i
  · subst hst; subst hq
    have hsw : strStartsWith "awaiting_audio_vogal_i" "awaiting_audio_" = true := by decide
    rcases user_audio with _ | a
    · have e : (message_step ⟨"awaiting_audio_vogal_i", m,
            ["vogal_o", "contagem_1_10"]⟩ sender user_text none).1
          = ⟨"awaiting_audio_vogal_i", m, ["vogal_o", "contagem_1_10"]⟩ := by
        simp [message_step, hsw]
      rw [e]
      exact Or.inr (Or.inr (Or.inl ⟨rfl, hc, rfl, h2, h3, h4⟩))
    · rcases a with _ | _ | url
      · have e : (message_step ⟨"awaiting_audio_vogal_i", m,
              ["vogal_o", "contagem_1_10"]⟩ sender user_text
              (some AudioResult.fetchError)).1
            = ⟨"awaiting_audio_vogal_i", m, ["vogal_o", "contagem_1_10"]⟩ := by
          simp [message_step, hsw, hc]
        rw [e]
        exact Or.inr (Or.inr (Or.inl ⟨rfl, hc, rfl, h2, h3, h4⟩))
      · have e : (message_step ⟨"awaiting_audio_vogal_i", m,
              ["vogal_o", "contagem_1_10"]⟩ sender user_text
              (some AudioResult.uploadFailure)).1
            = ⟨"awaiting_audio_" ++ "vogal_o",
               { m with current_audio_task := some "vogal_o" },
               ["contagem_1_10"]⟩ := by
          simp [message_step, hsw, hc, request_next_audio_task, taskPrompt]
        rw [e]
        exact Or.inr (Or.inr (Or.inr (Or.inl ⟨append_audio_o, rfl, rfl, h3, h4⟩)))
      · have e : (message_step ⟨"awaiting_audio_vogal_i", m,
              ["vogal_o", "contagem_1_10"]⟩ sender user_text
              (some (AudioResult.uploaded url))).1
            = ⟨"awaiting_audio_" ++ "vogal_o",
               { m with audio_urls := dictSet m.audio_urls "vogal_i" url,
                        current_audio_task := some "vogal_o" },
               ["contagem_1_10"]⟩ := by
          simp [message_step, hsw, hc, request_next_audio_task, taskPrompt]
        rw [e]
        refine Or.inr (Or.inr (Or.inr (Or.inl ⟨append_audio_o, rfl, rfl, ?_, ?_⟩)))
        · show List.lookup "vogal_o" (dictSet m.audio_urls "vogal_i" url) = none
          rw [lookup_dictSet_ne _ _ _ _ (by decide)]; exact h3
        · show List.lookup "contagem_1_10" (dictSet m.audio_urls "vogal_i" url) = none
          rw [lookup_dictSet_ne _ _ _ _ (by decide)]; exact h4
  -- awaiting_audio_vogal_o
  · subst hst; subst hq
    have hsw : strStartsWith "awaiting_audio_vogal_o" "awaiting_audio_" = true := by decide
    rcases user_audio with _ | a
    · have e : (message_step ⟨"awaiting_audio_vogal_o", m,
            ["contagem_1_10"]⟩ sender user_text none).1
          = ⟨"awaiting_audio_vogal_o", m, ["contagem_1_10"]⟩ := by
        simp [message_step, hsw]
      rw [e]
      exact Or.inr (Or.inr (Or.inr (Or.inl ⟨rfl, hc, rfl, h3, h4⟩)))
    · rcases a with _ | _ | url
      · have e : (message_step ⟨"awaiting_audio_vogal_o", m,
              ["contagem_1_10"]⟩ sender user_text (some AudioResult.fetchError)).1
            = ⟨"awaiting_audio_vogal_o", m, ["contagem_1_10"]⟩ := by
          simp [message_step, hsw, hc]
        rw [e]
        exact Or.inr (Or.inr (Or.inr (Or.inl ⟨rfl, hc, rfl, h3, h4⟩)))
      · have e : (message_step ⟨"awaiting_audio_vogal_o", m,
              ["contagem_1_10"]⟩ sender user_text (some AudioResult.uploadFailure)).1
            = ⟨"awaiting_audio_" ++ "contagem_1_10",
               { m with current_audio_task := some "contagem_1_10" }, []⟩ := by
          simp [message_step, hsw, hc, request_next_audio_task, taskPrompt]
        rw [e]
        exact Or.inr (Or.inr (Or.inr (Or.inr (Or.inl ⟨append_audio_c, rfl, rfl, h4⟩))))
      · have e : (message_step ⟨"awaiting_audio_vogal_o", m,
              ["contagem_1_10"]⟩ sender user_text (some (AudioResult.uploaded url))).1
            = ⟨"awaiting_audio_" ++ "contagem_1_10",
               { m with audio_urls := dictSet m.audio_urls "vogal_o" url,
                        current_audio_task := some "contagem_1_10" }, []⟩ := by
          simp [message_step, hsw, hc, request_next_audio_task, taskPrompt]
        rw [e]
        refine Or.inr (Or.inr (Or.inr (Or.inr (Or.inl ⟨append_audio_c, rfl, rfl, ?_⟩))))
        show List.lookup "contagem_1_10" (dictSet m.audio_urls "vogal_o" url) = none
        rw [lookup_dictSet_ne _ _ _ _ (by decide)]; exact h4
  -- awaiting_audio_contagem_1_10
  · subst hst; subst hq
    have hsw : strStartsWith "awaiting_audio_contagem_1_10" "awaiting_audio_" = true := by decide
    rcases user_audio with _ | a
    · have e : (message_step ⟨"awaiting_audio_contagem_1_10", m, []⟩ sender user_text none).1
          = ⟨"awaiting_audio_contagem_1_10", m, []⟩ := by
        simp [message_step, hsw]
      rw [e]
      exact Or.inr (Or.inr (Or.inr (Or.inr (Or.inl ⟨rfl, hc, rfl, h4⟩))))
    · rcases a with _ | _ | url
      · have e : (message_step ⟨"awaiting_audio_contagem_1_10", m, []⟩ sender user_text
              (some AudioResult.fetchError)).1
            = ⟨"awaiting_audio_contagem_1_10", m, []⟩ := by
          simp [message_step, hsw, hc]
        rw [e]
        exact Or.inr (Or.inr (Or.inr (Or.inr (Or.inl ⟨rfl, hc, rfl, h4⟩))))
      · refine Or.inr (Or.inr (Or.inr (Or.inr (Or.inr ?_))))
        simp [message_step, hsw, hc, request_next_audio_task]
      · refine Or.inr (Or.inr (Or.inr (Or.inr (Or.inr ?_))))
        simp [message_step, hsw, hc, request_next_audio_task]
  -- finished
  · subst hst; subst hq
    have hsw : strStartsWith "finished" "awaiting_audio_" = false := by decide
    refine Or.inr (Or.inr (Or.inr (Or.inr (Or.inr ?_))))
    rcases user_text with _ | t
    · simp [message_step, hsw]
    · by_cases h0 : t = ""
      · simp [message_step, hsw, h0]
      · by_cases hrt : asciiLower t = "reiniciar"
        · simp [message_step, hsw, h0, hrt]
        · simp [message_step, hsw, h0, hrt]

/-- Reachable sessions satisfy the invariant. -/
theorem reach_SessInv (s : Session) (h : Reach s) : SessInv s := by
  induction h with
  | base chat_id sender => exact Or.inl (by simp [start_command, textualStages])
  | step sender user_text user_audio hr ih =>
      exact SessInv_step _ sender user_text user_audio ih

/-- Reachability is preserved by processing a whole list of messages. -/
theorem reach_runSession (sender : String) (s : Session)
    (msgs : List (Option String × Option AudioResult)) (h : Reach s) :
    Reach (runSession sender s msgs) := by
  induction msgs generalizing s with
  | nil => exact h
  | cons p rest ih =>
      simp only [runSession, List.foldl]
      exact ih _ (Reach.step sender p.1 p.2 h)

/-- Claim C1: the spec says a failed upload leaves the stage on the same task.
The code instead calls request_next_audio_task unconditionally after the
upload attempt (main.py line 233 sits outside the success check of line 217),
so after an upload failure during AWAITING_AUDIO_TASK(vogal_i) the user gets
the failure reply but the stage advances to AWAITING_AUDIO_TASK(vogal_o);
no vogal_i entry is recorded. -/
theorem C1_upload_failure_advances_stage :
    Reach sessionVogalI
    ∧ sessionVogalI.stage = "awaiting_audio_vogal_i"
    ∧ (message_step sessionVogalI "Ana" none (some AudioResult.uploadFailure)).2
        = [uploadFailedReply, promptVogalO]
    ∧ (message_step sessionVogalI "Ana" none
        (some AudioResult.uploadFailure)).1.metadata.audio_urls.lookup "vogal_i" = none
    ∧ (message_step sessionVogalI "Ana" none (some AudioResult.uploadFailure)).1.stage
        = "awaiting_audio_vogal_o"
    ∧ ¬(message_step sessionVogalI "Ana" none (some AudioResult.uploadFailure)).1.stage
        = "awaiting_audio_vogal_i" :=
  ⟨reach_runSession "Ana" _ _ (Reach.base 1 "Ana"),
   by decide, by decide, by decide, by decide, by decide⟩

/-- Claim C2: the reset keyword in the finished stage does not reinitialize the
stored session.  start_command stores a fresh session, but the unconditional
write-back at main.py line 249 restores the stale finished session, so the
stored session keeps its stage and all collected metadata; only the welcome
reply is sent. -/
theorem C2_reset_keyword_leaves_session_finished :
    Reach sessionFinished
    ∧ sessionFinished.stage = "finished"
    ∧ sessionFinished.metadata.name = some "Maria"
    ∧ (message_handler (setStore (fun _ => none) 1 sessionFinished) 1 "Ana"
        (some "reiniciar") none).1 1 = some sessionFinished
    ∧ (message_handler (setStore (fun _ => none) 1 sessionFinished) 1 "Ana"
        (some "reiniciar") none).2 = [consentPrompt "Ana"] :=
  ⟨reach_runSession "Ana" _ _ (Reach.base 1 "Ana"),
   by decide, by decide, by decide, by decide⟩

/-- Claim C3 counterexample: on first contact the handler creates the session
via start_command, whose metadata already carries the chat id and the sender
display name, so the created metadata is not empty; the inbound message
itself is not processed (only the consent prompt is sent). -/
theorem C3_created_metadata_not_empty :
    (message_handler (fun _ => none) 42 "Ana" (some "olá") none).1 42
        = some (start_command 42 "Ana").1
    ∧ (message_handler (fun _ => none) 42 "Ana" (some "olá") none).2
        = [consentPrompt "Ana"]
    ∧ ¬(start_command 42 "Ana").1.metadata = ({} : Metadata) := by
  refine ⟨?_, ?_, ?_⟩ <;> decide

/-- Claim C3 (amended): the lookup on an inbound message processes the stored
session unchanged when one exists, and otherwise creates a session in the
initial stage awaiting_consent with an empty task queue and metadata holding
exactly the chat id and sender display name, replying only with the consent
prompt. -/
theorem C3_get_or_create_amended (store : Store) (chat_id : Nat) (sender : String)
    (user_text : Option String) (user_audio : Option AudioResult) (s0 : Session) :
    (message_handler (fun _ => none) chat_id sender user_text user_audio).1 chat_id
        = some (start_command chat_id sender).1
    ∧ (message_handler (fun _ => none) chat_id sender user_text user_audio).2
        = [consentPrompt sender]
    ∧ message_handler (setStore store chat_id s0) chat_id sender user_text user_audio
        = (setStore (setStore store chat_id s0) chat_id
             (message_step s0 sender user_text user_audio).1,
           (message_step s0 sender user_text user_audio).2) := by
  refine ⟨?_, ?_, ?_⟩
  · simp [message_handler, setStore]
  · simp [message_handler, start_command]
  · simp [message_handler, setStore]

/-- Claim C4 counterexample: an accepted consent answer changes only the
stage; the session metadata is unchanged, so no consent answer is stored
in it (the embedded metadata record has no consent field because the code
never writes one). -/
theorem C4_consent_not_stored :
    (message_step (start_command 1 "Ana").1 "Ana" (some "sim") none).1.stage = "awaiting_name"
    ∧ (message_step (start_command 1 "Ana").1 "Ana" (some "sim") none).1.metadata
        = (start_command 1 "Ana").1.metadata
    ∧ (message_step (start_command 1 "Ana").1 "Ana" (some "não") none).1.stage = "finished"
    ∧ (message_step (start_command 1 "Ana").1 "Ana" (some "não") none).1.metadata
        = (start_command 1 "Ana").1.metadata := by
  refine ⟨?_, ?_, ?_, ?_⟩ <;> decide

/-- Claim C4 (amended): in AWAITING_CONSENT a text lower-casing to sim or s
moves the stage to AWAITING_NAME, one lower-casing to não, n or nao moves it
to FINISHED, and any other text gets the repeat reply and leaves the session
as it was; in all three cases the metadata and task queue are unchanged, the
consent being recorded only through the stage. -/
theorem C4_consent_amended (m : Metadata) (q : List String) (sender t₁ t₂ t₃ : String)
    (voice : Option AudioResult)
    (h1 : asciiLower t₁ = "sim" ∨ asciiLower t₁ = "s")
    (h2 : asciiLower t₂ = "não" ∨ asciiLower t₂ = "n" ∨ asciiLower t₂ = "nao")
    (h3 : ¬(asciiLower t₃ = "sim" ∨ asciiLower t₃ = "s")
          ∧ ¬(asciiLower t₃ = "não" ∨ asciiLower t₃ = "n" ∨ asciiLower t₃ = "nao")) :
    message_step ⟨"awaiting_consent", m, q⟩ sender (some t₁) voice
        = (⟨"awaiting_name", m, q⟩, [askNameReply])
    ∧ message_step ⟨"awaiting_consent", m, q⟩ sender (some t₂) voice
        = (⟨"finished", m, q⟩, [declinedReply])
    ∧ message_step ⟨"awaiting_consent", m, q⟩ sender (some t₃) voice
        = (⟨"awaiting_consent", m, q⟩, [askConsentAgainReply]) := by
  have ht1 : ¬t₁ = "" := by
    intro h0; subst h0
    rcases h1 with h | h <;> exact absurd h (by decide)
  have ht2 : ¬t₂ = "" := by
    intro h0; subst h0
    rcases h2 with h | h | h <;> exact absurd h (by decide)
  have hn2 : ¬(asciiLower t₂ = "sim" ∨ asciiLower t₂ = "s") := by
    rcases h2 with h | h | h <;> rw [h] <;> decide
  refine ⟨?_, ?_, ?_⟩
  · simp [message_step, ht1, h1]
  · simp [message_step, ht2, hn2, h2]
  · simp [message_step, h3.1, h3.2]

/-- Claim C4 amended witness at concrete inputs Sim, NAO and talvez. -/
theorem C4_consent_amended_witness :
    message_step ⟨"awaiting_consent", ({} : Metadata), []⟩ "Ana" (some "Sim") none
        = (⟨"awaiting_name", ({} : Metadata), []⟩, [askNameReply])
    ∧ message_step ⟨"awaiting_consent", ({} : Metadata), []⟩ "Ana" (some "NAO") none
        = (⟨"finished", ({} : Metadata), []⟩, [declinedReply])
    ∧ message_step ⟨"awaiting_consent", ({} : Metadata), []⟩ "Ana" (some "talvez") none
        = (⟨"awaiting_consent", ({} : Metadata), []⟩, [askConsentAgainReply]) :=
  C4_consent_amended {} [] "Ana" "Sim" "NAO" "talvez" none
    (by decide) (by decide) ⟨by decide, by decide⟩

/-- Claim C5: in AWAITING_ENVIRONMENT with an empty task queue, any non-empty
text is accepted; the task queue is initialized with the four fixed tasks and
the first is immediately dequeued, leaving the queue equal to the full list
minus its first element, current_audio_task vogal_a, and the stage awaiting
the vogal_a recording. -/
theorem C5_environment_starts_task_queue (m : Metadata) (sender t : String)
    (voice : Option AudioResult) (ht : ¬t = "") :
    (message_step ⟨"awaiting_environment", m, []⟩ sender (some t) voice).1.tasks_queue
        = ["vogal_i", "vogal_o", "contagem_1_10"]
    ∧ (message_step ⟨"awaiting_environment", m, []⟩ sender (some t) voice).1.metadata.current_audio_task
        = some "vogal_a"
    ∧ (message_step ⟨"awaiting_environment", m, []⟩ sender (some t) voice).1.stage
        = "awaiting_audio_vogal_a"
    ∧ (message_step ⟨"awaiting_environment", m, []⟩ sender (some t) voice).1.metadata.environment
        = some (stripWS t) := by
  refine ⟨?_, ?_, ?_, ?_⟩ <;>
    simp [message_step, ht, request_next_audio_task, taskPrompt, append_audio_a]

/-- Claim C5 witness at the concrete environment answer Silencioso. -/
theorem C5_environment_starts_task_queue_witness :
    (message_step ⟨"awaiting_environment", ({} : Metadata), []⟩ "Ana"
        (some "Silencioso") none).1.tasks_queue = ["vogal_i", "vogal_o", "contagem_1_10"]
    ∧ (message_step ⟨"awaiting_environment", ({} : Metadata), []⟩ "Ana"
        (some "Silencioso") none).1.metadata.current_audio_task = some "vogal_a"
    ∧ (message_step ⟨"awaiting_environment", ({} : Metadata), []⟩ "Ana"
        (some "Silencioso") none).1.stage = "awaiting_audio_vogal_a"
    ∧ (message_step ⟨"awaiting_environment", ({} : Metadata), []⟩ "Ana"
        (some "Silencioso") none).1.metadata.environment = some (stripWS "Silencioso") :=
  C5_environment_starts_task_queue {} "Ana" "Silencioso" none (by decide)

/-- Claim C6 counterexample: the text +17 is parseable as the integer 17,
which lies in [5,120], yet in AWAITING_AGE the code rejects it with the
range reply and stores no age, because its guard is str.isdigit. -/
theorem C6_parseable_age_rejected :
    parseIntSpec "+17" = some 17
    ∧ ((5 : Int) ≤ 17 ∧ (17 : Int) ≤ 120)
    ∧ message_step ⟨"awaiting_age", ({} : Metadata), []⟩ "Ana" (some "+17") none
        = (⟨"awaiting_age", ({} : Metadata), []⟩, [ageRangeReply])
    ∧ (message_step ⟨"awaiting_age", ({} : Metadata), []⟩ "Ana"
        (some "+17") none).1.metadata.age = none := by
  refine ⟨?_, ?_, ?_, ?_⟩ <;> decide

/-- Claim C6 (amended): in AWAITING_AGE a text consisting solely of digits
whose value n lies in [5,120] is accepted, metadata.age becomes n and the
stage advances to AWAITING_SMOKING_STATUS; any other text (including signed
or whitespace-padded numerals) is rejected with the range reply, leaving the
session unchanged. -/
theorem C6_age_amended (m : Metadata) (q : List String) (sender t u : String) (n : Nat)
    (voice : Option AudioResult)
    (hacc : digitStrToNat? t = some n ∧ 5 ≤ n ∧ n ≤ 120)
    (hrej : ∀ k, digitStrToNat? u = some k → ¬(5 ≤ k ∧ k ≤ 120)) :
    message_step ⟨"awaiting_age", m, q⟩ sender (some t) voice
        = (⟨"awaiting_smoking_status", { m with age := some n }, q⟩, [askSmokingReply])
    ∧ message_step ⟨"awaiting_age", m, q⟩ sender (some u) voice
        = (⟨"awaiting_age", m, q⟩, [ageRangeReply]) := by
  obtain ⟨ht, hr5, hr120⟩ := hacc
  constructor
  · simp [message_step, ht, hr5, hr120]
  · cases hdu : digitStrToNat? u with
    | none => simp [message_step, hdu]
    | some k =>
        have hk := hrej k hdu
        simp [message_step, hdu, hk]

/-- Claim C6 amended witness: input 17 is accepted with metadata.age 17, and
input 200 is rejected. -/
theorem C6_age_amended_witness :
    message_step ⟨"awaiting_age", ({} : Metadata), []⟩ "Ana" (some "17") none
        = (⟨"awaiting_smoking_status", { ({} : Metadata) with age := some 17 }, []⟩,
           [askSmokingReply])
    ∧ message_step ⟨"awaiting_age", ({} : Metadata), []⟩ "Ana" (some "200") none
        = (⟨"awaiting_age", ({} : Metadata), []⟩, [ageRangeReply]) :=
  C6_age_amended {} [] "Ana" "17" "200" 17 none ⟨by decide, by decide, by decide⟩
    (fun k hk => by
      have h200 : digitStrToNat? "200" = some 200 := by decide
      rw [h200] at hk
      have hk2 : k = 200 := (Option.some.inj hk).symm
      subst hk2
      decide)

/-- Claim C7: a rejected message is a no-op apart from its state-specific
corrective reply: the resulting session is exactly the input session (stage,
metadata and task queue unchanged) and the reply list is the single
corrective reply of the current stage. -/
theorem C7_invalid_message_is_noop (s : Session) (sender : String)
    (user_text : Option String) (user_audio : Option AudioResult)
    (h : rejects s user_text user_audio = true) :
    message_step s sender user_text user_audio = (s, [rejectReply s.stage]) := by
  obtain ⟨st, m, q⟩ := s
  by_cases e1 : st = "awaiting_consent"
  · subst e1
    rcases user_text with _ | t
    · simp [message_step, rejectReply]
    · by_cases h0 : t = ""
      · simp [message_step, rejectReply, h0]
      · by_cases hy : asciiLower t = "sim" ∨ asciiLower t = "s"
        · simp [rejects, h0, hy] at h
        · by_cases hn : asciiLower t = "não" ∨ asciiLower t = "n" ∨ asciiLower t = "nao"
          · simp [rejects, h0, hy, hn] at h
          · simp [message_step, rejectReply, h0, hy, hn]
  · by_cases e2 : st = "awaiting_name"
    · subst e2
      rcases user_text with _ | t
      · simp [message_step, rejectReply, e1]
      · by_cases h0 : t = ""
        · simp [message_step, rejectReply, e1, h0]
        · simp [rejects, e1, h0] at h
    · by_cases e3 : st = "awaiting_age"
      · subst e3
        rcases user_text with _ | t
        · simp [message_step, rejectReply, e1, e2]
        · cases hdt : digitStrToNat? t with
          | none => simp [message_step, rejectReply, e1, e2, hdt]
          | some n =>
              by_cases hr : 5 ≤ n ∧ n ≤ 120
              · simp [rejects, e1, e2, hdt, hr] at h
              · simp [message_step, rejectReply, e1, e2, hdt, hr]
      · by_cases e4 : st = "awaiting_smoking_status"
        · subst e4
          rcases user_text with _ | t
          · simp [message_step, rejectReply, e1, e2, e3]
          · by_cases h0 : t = ""
            · simp [message_step, rejectReply, e1, e2, e3, h0]
            · by_cases hy : asciiLower t = "fumante" ∨ asciiLower t = "ex-fumante"
                  ∨ asciiLower t = "não fumante" ∨ asciiLower t = "nao fumante"
              · simp [rejects, e1, e2, e3, h0, hy] at h
              · simp [message_step, rejectReply, e1, e2, e3, h0, hy]
        · by_cases e5 : st = "awaiting_diagnosis"
          · subst e5
            rcases user_text with _ | t
            · simp [message_step, rejectReply, e1, e2, e3, e4]
            · by_cases h0 : t = ""
              · simp [message_step, rejectReply, e1, e2, e3, e4, h0]
              · simp [rejects, e1, e2, e3, e4, h0] at h
          · by_cases e6 : st = "awaiting_emotional_state"
            · subst e6
              rcases user_text with _ | t
              · simp [message_step, rejectReply, e1, e2, e3, e4, e5]
              · cases hdt : digitStrToNat? t with
                | none => simp [message_step, rejectReply, e1, e2, e3, e4, e5, hdt]
                | some n =>
                    by_cases hr : 1 ≤ n ∧ n ≤ 5
                    · simp [rejects, e1, e2, e3, e4, e5, hdt, hr] at h
                    · simp [message_step, rejectReply, e1, e2, e3, e4, e5, hdt, hr]
            · by_cases e7 : st = "awaiting_environment"
              · subst e7
                rcases user_text with _ | t
                · simp [message_step, rejectReply, e1, e2, e3, e4, e5, e6]
                · by_cases h0 : t = ""
                  · simp [message_step, rejectReply, e1, e2, e3, e4, e5, e6, h0]
                  · simp [rejects, e1, e2, e3, e4, e5, e6, h0] at h
              · by_cases e8 : strStartsWith st "awaiting_audio_" = true
                · rcases user_audio with _ | a
                  · simp [message_step, rejectReply, e1, e2, e3, e4, e5, e6, e7, e8]
                  · simp [rejects, e1, e2, e3, e4, e5, e6, e7, e8] at h
                · by_cases e9 : st = "finished"
                  · subst e9
                    rcases user_text with _ | t
                    · simp [message_step, rejectReply, e1, e2, e3, e4, e5, e6, e7, e8]
                    · by_cases h0 : t = ""
                      · simp [message_step, rejectReply, e1, e2, e3, e4, e5, e6, e7, e8, h0]
                      · by_cases hrt : asciiLower t = "reiniciar"
                        · simp [rejects, e1, e2, e3, e4, e5, e6, e7, e8, h0, hrt] at h
                        · simp [message_step, rejectReply, e1, e2, e3, e4, e5, e6, e7, e8,
                                h0, hrt]
                  · simp [rejects, e1, e2, e3, e4, e5, e6, e7, e8, e9] at h

/-- Claim C7 witness: a non-numeric age answer in AWAITING_AGE is rejected,
leaving the session unchanged with the range reply. -/
theorem C7_invalid_message_is_noop_witness :
    rejects ⟨"awaiting_age", ({} : Metadata), []⟩ (some "abc") none = true
    ∧ message_step ⟨"awaiting_age", ({} : Metadata), []⟩ "Ana" (some "abc") none
        = (⟨"awaiting_age", ({} : Metadata), []⟩, [rejectReply "awaiting_age"]) :=
  ⟨by decide, C7_invalid_message_is_noop _ "Ana" _ _ (by decide)⟩

/-- Claim C8 counterexample: in the reachable FINISHED state after four
successful uploads, metadata.current_audio_task is still present and equals
contagem_1_10 even though that task has been fulfilled (an audio reference
for it is recorded), contradicting the claim that a present
current_audio_task is always not yet fulfilled. -/
theorem C8_finished_keeps_fulfilled_task :
    Reach sessionFinished
    ∧ sessionFinished.stage = "finished"
    ∧ sessionFinished.metadata.current_audio_task = some "contagem_1_10"
    ∧ sessionFinished.metadata.audio_urls.lookup "contagem_1_10" = some "u4" :=
  ⟨reach_runSession "Ana" _ _ (Reach.base 1 "Ana"), by decide, by decide, by decide⟩

/-- Claim C8 (amended): in every reachable session whose stage is an
awaiting-audio stage, current_audio_task is present, equals the task encoded
in the stage (the most recently dequeued task), and no audio reference has
been recorded for it; once the stage is FINISHED the field may keep the last
dequeued task even though it has been fulfilled. -/
theorem C8_current_task_amended (s : Session) (h : Reach s)
    (haudio : strStartsWith s.stage "awaiting_audio_" = true) :
    ∃ t, s.stage = "awaiting_audio_" ++ t
      ∧ s.metadata.current_audio_task = some t
      ∧ s.metadata.audio_urls.lookup t = none := by
  have hinv := reach_SessInv s h
  simp only [SessInv, textualStages, List.mem_cons, List.not_mem_nil, or_false] at hinv
  rcases hinv with ⟨hst | hst | hst | hst | hst | hst | hst, hq, hc, hu⟩
    | ⟨hst, hc, hq, h1, h2, h3, h4⟩ | ⟨hst, hc, hq, h2, h3, h4⟩
    | ⟨hst, hc, hq, h3, h4⟩ | ⟨hst, hc, hq, h4⟩ | ⟨hst, hq⟩
  · rw [hst] at haudio; exact absurd haudio (by decide)
  · rw [hst] at haudio; exact absurd haudio (by decide)
  · rw [hst] at haudio; exact absurd haudio (by decide)
  · rw [hst] at haudio; exact absurd haudio (by decide)
  · rw [hst] at haudio; exact absurd haudio (by decide)
  · rw [hst] at haudio; exact absurd haudio (by decide)
  · rw [hst] at haudio; exact absurd haudio (by decide)
  · exact ⟨"vogal_a", by rw [hst]; exact append_audio_a.symm, hc, h1⟩
  · exact ⟨"vogal_i", by rw [hst]; exact append_audio_i.symm, hc, h2⟩
  · exact ⟨"vogal_o", by rw [hst]; exact append_audio_o.symm, hc, h3⟩
  · exact ⟨"contagem_1_10", by rw [hst]; exact append_audio_c.symm, hc, h4⟩
  · rw [hst] at haudio; exact absurd haudio (by decide)

/-- Claim C8 amended witness at the reachable session awaiting vogal_a. -/
theorem C8_current_task_amended_witness :
    ∃ t, sessionVogalA.stage = "awaiting_audio_" ++ t
      ∧ sessionVogalA.metadata.current_audio_task = some t
      ∧ sessionVogalA.metadata.audio_urls.lookup t = none :=
  C8_current_task_amended sessionVogalA
    (reach_runSession "Ana" _ _ (Reach.base 1 "Ana")) (by decide)

/-- Claim C9: in every reachable session the task queue is non-empty only
while the stage is an awaiting-audio stage, and a step can only empty a
non-empty queue by dequeuing its single remaining task, which then becomes
current_audio_task. -/
theorem C9_queue_nonempty_only_awaiting_audio (s : Session) (h : Reach s) :
    (s.tasks_queue ≠ [] → strStartsWith s.stage "awaiting_audio_" = true)
    ∧ (∀ sender user_text user_audio,
        s.tasks_queue ≠ [] →
        (message_step s sender user_text user_audio).1.tasks_queue = [] →
        s.tasks_queue.length = 1
        ∧ (message_step s sender user_text user_audio).1.metadata.current_audio_task
            = s.tasks_queue.head?) := by
  obtain ⟨st, m, q⟩ := s
  have hinv := reach_SessInv _ h
  simp only [SessInv, textualStages, List.mem_cons, List.not_mem_nil, or_false] at hinv
  rcases hinv with ⟨hst, hq, hc, hu⟩ | ⟨hst, hc, hq, h1, h2, h3, h4⟩
    | ⟨hst, hc, hq, h2, h3, h4⟩ | ⟨hst, hc, hq, h3, h4⟩ | ⟨hst, hc, hq, h4⟩ | ⟨hst, hq⟩
  · exact ⟨fun hne => absurd hq hne, fun _ _ _ hne _ => absurd hq hne⟩
  · subst hst; subst hq
    have hsw : strStartsWith "awaiting_audio_vogal_a" "awaiting_audio_" = true := by decide
    refine ⟨fun _ => hsw, ?_⟩
    intro sender2 utext uaudio hne hempty
    exfalso
    rcases uaudio with _ | a
    · simp [message_step, hsw] at hempty
    · rcases a with _ | _ | url
      · simp [message_step, hsw, hc] at hempty
      · simp [message_step, hsw, hc, request_next_audio_task, taskPrompt] at hempty
      · simp [message_step, hsw, hc, request_next_audio_task, taskPrompt] at hempty
  · subst hst; subst hq
    have hsw : strStartsWith "awaiting_audio_vogal_i" "awaiting_audio_" = true := by decide
    refine ⟨fun _ => hsw, ?_⟩
    intro sender2 utext uaudio hne hempty
    exfalso
    rcases uaudio with _ | a
    · simp [message_step, hsw] at hempty
    · rcases a with _ | _ | url
      · simp [message_step, hsw, hc] at hempty
      · simp [message_step, hsw, hc, request_next_audio_task, taskPrompt] at hempty
      · simp [message_step, hsw, hc, request_next_audio_task, taskPrompt] at hempty
  · subst hst; subst hq
    have hsw : strStartsWith "awaiting_audio_vogal_o" "awaiting_audio_" = true := by decide
    refine ⟨fun _ => hsw, ?_⟩
    intro sender2 utext uaudio hne hempty
    rcases uaudio with _ | a
    · exact absurd hempty (by simp [message_step, hsw])
    · rcases a with _ | _ | url
      · exact absurd hempty (by simp [message_step, hsw, hc])
      · refine ⟨rfl, ?_⟩
        simp [message_step, hsw, hc, request_next_audio_task, taskPrompt]
      · refine ⟨rfl, ?_⟩
        simp [message_step, hsw, hc, request_next_audio_task, taskPrompt]
  · exact ⟨fun hne => absurd hq hne, fun _ _ _ hne _ => absurd hq hne⟩
  · exact ⟨fun hne => absurd hq hne, fun _ _ _ hne _ => absurd hq hne⟩

/-- Claim C9 witness at the reachable session awaiting vogal_o, whose queue
holds the single task contagem_1_10: the successful upload empties the queue
and contagem_1_10 becomes the current task. -/
theorem C9_queue_nonempty_only_awaiting_audio_witness :
    strStartsWith sessionVogalO.stage "awaiting_audio_" = true
    ∧ sessionVogalO.tasks_queue.length = 1
    ∧ (message_step sessionVogalO "Ana" none
        (some (AudioResult.uploaded "u3"))).1.metadata.current_audio_task
        = sessionVogalO.tasks_queue.head? := by
  have h := C9_queue_nonempty_only_awaiting_audio sessionVogalO
    (reach_runSession "Ana" _ _ (Reach.base 1 "Ana"))
  have h2 := h.2 "Ana" none (some (AudioResult.uploaded "u3")) (by decide) (by decide)
  exact ⟨h.1 (by decide), h2.1, h2.2⟩

/-- Claim C10: every accepted free-text answer is stored stripped of leading
and trailing whitespace (name, diagnosis, environment), and the smoking
status is stored stripped and lowercased; whitespace-only text is accepted
at the three strip-only states and stored as the empty string. -/
theorem C10_stored_text_is_stripped (m : Metadata) (q : List String) (sender t u : String)
    (voice : Option AudioResult) (ht : ¬t = "")
    (hu : asciiLower u = "fumante" ∨ asciiLower u = "ex-fumante"
          ∨ asciiLower u = "não fumante" ∨ asciiLower u = "nao fumante") :
    (message_step ⟨"awaiting_name", m, q⟩ sender (some t) voice).1.metadata.name
        = some (stripWS t)
    ∧ (message_step ⟨"awaiting_diagnosis", m, q⟩ sender (some t) voice).1.metadata.diagnosis
        = some (stripWS t)
    ∧ (message_step ⟨"awaiting_environment", m, q⟩ sender (some t) voice).1.metadata.environment
        = some (stripWS t)
    ∧ (message_step ⟨"awaiting_smoking_status", m, q⟩ sender (some u) voice).1.metadata.smoking_status
        = some (asciiLower (stripWS u)) := by
  have hu0 : ¬u = "" := by
    intro h0; subst h0
    rcases hu with h | h | h | h <;> exact absurd h (by decide)
  refine ⟨?_, ?_, ?_, ?_⟩
  · simp [message_step, ht]
  · simp [message_step, ht]
  · simp [message_step, ht, request_next_audio_task, taskPrompt]
  · simp [message_step, hu0, hu]

/-- Claim C10 witness: the whitespace-only name answer is accepted and stored
as the empty string, and the smoking answer Fumante is stored lowercased. -/
theorem C10_stored_text_is_stripped_witness :
    ((message_step ⟨"awaiting_name", ({} : Metadata), []⟩ "Ana" (some "   ") none).1.metadata.name
        = some (stripWS "   ")
      ∧ (message_step ⟨"awaiting_diagnosis", ({} : Metadata), []⟩ "Ana"
          (some "   ") none).1.metadata.diagnosis = some (stripWS "   ")
      ∧ (message_step ⟨"awaiting_environment", ({} : Metadata), []⟩ "Ana"
          (some "   ") none).1.metadata.environment = some (stripWS "   ")
      ∧ (message_step ⟨"awaiting_smoking_status", ({} : Metadata), []⟩ "Ana"
          (some "Fumante") none).1.metadata.smoking_status
          = some (asciiLower (stripWS "Fumante")))
    ∧ stripWS "   " = ""
    ∧ asciiLower (stripWS "Fumante") = "fumante" :=
  ⟨C10_stored_text_is_stripped {} [] "Ana" "   " "Fumante" none (by decide) (by decide),
   by decide, by decide⟩
